import Mathlib

/-!
Shallow embedding of the gounity filesystem accessor (package `gounity`,
file corresponding to the `filesystem` resource accessor) and of the HTTP
logging helpers (package `api`, file `api_logging.go`).

Modelling conventions:
* Go errors are modelled by `GoErr`: the package-level sentinel
  `FilesystemNotFoundError` is the constructor `GoErr.fsNotFound`; every
  `errors.New(...)` of a freshly formatted message is `GoErr.msg s`.
  In Go two errors created by `errors.New` are distinct values even when
  their messages coincide; equality with a sentinel holds only for the
  sentinel value itself, which `GoErr` reflects by constructor identity.
* The shared HTTP executor (`executeWithRetryAuthenticate`) is a parameter:
  an `Executor` maps each issued `Request` to a typed response or an error.
  Every operation returns, next to its Go result, the ordered list of
  requests it handed to the executor, so a statement such as performing
  no network call is the statement that this trace is the empty list.
* Go `len` on identifier strings is modelled by `String.length` (all
  concrete identifiers used here are ASCII, where the two agree).
-/

deriving instance DecidableEq for Except

namespace Gounity

/-- Modelled from the spec: the vendor-defined templated URI for getting a
resource by name with a field selection (the literal URI text lives in the
`api` package, outside the given sources; only the templating matters). -/
def unityApiGetResourceByNameWithFieldsUri (res name fields : String) : String :=
  "/api/instances/" ++ res ++ "/name:" ++ name ++ "?fields=" ++ fields

/-- Modelled from the spec: the vendor-defined templated URI for getting a
resource by id with a field selection. -/
def unityApiGetResourceWithFieldsUri (res id fields : String) : String :=
  "/api/instances/" ++ res ++ "/" ++ id ++ "?fields=" ++ fields

/-- Modelled from the spec: the vendor-defined templated URI for a resource
instance (used by the filesystem delete). -/
def unityApiGetResourceUri (res id : String) : String :=
  "/api/instances/" ++ res ++ "/" ++ id

/-- Modelled from the spec: the vendor-defined templated URI for a storage
resource action such as createFilesystem. -/
def unityApiStorageResourceActionUri (action : String) : String :=
  "/api/types/storageResource/action/" ++ action

/-- Modelled from the spec: the vendor-defined templated URI for the
modify-filesystem action on a storage resource. -/
def unityModifyFilesystemUri (resourceId : String) : String :=
  "/api/instances/storageResource/" ++ resourceId ++ "/action/modifyFilesystem"

/-- Modelled from the spec: the field-selection string for filesystem
lookups (constant `api.FileSystemDisplayFields`, outside the given sources). -/
def fileSystemDisplayFields : String := "fileSystemDisplayFields"

/-- Modelled from the spec: the field-selection string for NFS share
lookups (constant `api.NFSShareDisplayfields`). -/
def nfsShareDisplayfields : String := "nfsShareDisplayfields"

/-- Modelled from the spec: the field-selection string for NAS server
lookups (constant `api.NasServerDisplayfields`). -/
def nasServerDisplayfields : String := "nasServerDisplayfields"

/-- Modelled from the spec: the feature name for thin provisioning used by
the license lookup (constant `ThinProvisioning` from the volume accessor). -/
def thinProvisioning : String := "ThinProvisioning"

/-- Modelled from the spec: the feature name for data reduction used by the
license lookup (constant `DataReduction` from the volume accessor). -/
def dataReduction : String := "DataReduction"

/-- Modelled from the spec: `types.StorageResource`, only the array-assigned
id is consumed by this accessor. -/
structure StorageResource where
  id : String
deriving DecidableEq

/-- Modelled from the spec: the content of `types.Filesystem`, only the
storage-resource reference is consumed by this accessor. -/
structure FileContent where
  storageResource : StorageResource
deriving DecidableEq

/-- Modelled from the spec: `types.Filesystem` as decoded from a lookup. -/
structure Filesystem where
  fileContent : FileContent
deriving DecidableEq

/-- Modelled from the spec: `types.NFSShare` as decoded from a lookup; its
fields are not consumed by this accessor. -/
structure NFSShare where
  id : String
deriving DecidableEq

/-- Modelled from the spec: `types.NASServer` as decoded from a lookup; its
fields are not consumed by this accessor. -/
structure NASServer where
  id : String
deriving DecidableEq

/-- Modelled from the spec: the FastVP status block of a storage pool; the
accessor only compares the status with zero. -/
structure PoolFastVP where
  status : Int
deriving DecidableEq

/-- Modelled from the spec: the content of `types.StoragePool`. -/
structure StoragePoolContent where
  poolFastVP : PoolFastVP
deriving DecidableEq

/-- Modelled from the spec: `types.StoragePool` as decoded from a lookup. -/
structure StoragePool where
  storagePoolContent : StoragePoolContent
deriving DecidableEq

/-- Modelled from the spec: the license information content consumed by the
licensing checks during filesystem creation. -/
structure LicenseInfoContent where
  isInstalled : Bool
  isValid : Bool
deriving DecidableEq

/-- Modelled from the spec: the license lookup response. -/
structure LicenseInfo where
  licenseInfoContent : LicenseInfoContent
deriving DecidableEq

/-- `types.StoragePoolID`: the pool reference placed in the creation payload. -/
structure StoragePoolID where
  poolId : String
deriving DecidableEq

/-- `types.NasServerID`: the NAS server reference placed in the creation payload. -/
structure NasServerID where
  nasServerId : String
deriving DecidableEq

/-- `types.FileEventSettings` as populated by CreateFilesystem. -/
structure FileEventSettings where
  isCIFSEnabled : Bool
  isNFSEnabled : Bool
deriving DecidableEq

/-- `types.FastVPParameters` as populated when FastVP is enabled on the pool. -/
structure FastVPParameters where
  tieringPolicy : Int
deriving DecidableEq

/-- `types.FsParameters`: the filesystem creation parameters. Go string
fields that the code may leave unassigned keep the Go zero value, the empty
string; the Go pointer field for FastVP parameters is an `Option`. -/
structure FsParameters where
  storagePool : StoragePoolID
  size : Nat
  supportedProtocol : Int
  hostIOSize : Int
  nasServer : NasServerID
  fileEventSettings : FileEventSettings
  isThinEnabled : String := ""
  isDataReductionEnabled : String := ""
  fastVPParameters : Option FastVPParameters := none
deriving DecidableEq

/-- `types.FsCreateParam`: the createFilesystem request payload. -/
structure FsCreateParam where
  name : String
  description : String
  fsParameters : FsParameters
deriving DecidableEq

/-- `types.HostIdContent`: one host reference in a host-access list. -/
structure HostIdContent where
  id : String
deriving DecidableEq

/-- `types.NFSShareParameters`: the share parameters sent on create and
modify; Go pointer fields (the four host-access lists) are `Option`, the
Go string field keeps the empty string as its zero value. -/
structure NFSShareParameters where
  defaultAccess : String := ""
  readOnlyHosts : Option (List HostIdContent) := none
  readWriteHosts : Option (List HostIdContent) := none
  readOnlyRootAccessHosts : Option (List HostIdContent) := none
  rootAccessHosts : Option (List HostIdContent) := none
deriving DecidableEq

/-- `types.NFSShareCreateParam`: one new share inside a modify-filesystem
payload. -/
structure NFSShareCreateParam where
  name : String
  path : String
  nfsShareParameters : NFSShareParameters
deriving DecidableEq

/-- `types.FsModifyParameters`: the modify-filesystem payload used by
CreateNFSShare. -/
structure FsModifyParameters where
  nfsShares : List NFSShareCreateParam
deriving DecidableEq

/-- `types.StorageResourceParam`: the share reference inside a modify or
delete payload. -/
structure StorageResourceParam where
  id : String
deriving DecidableEq

/-- `types.NFSShareModifyContent`: one share entry of a modify or delete
payload; the parameters pointer is nil on delete, hence an `Option`. -/
structure NFSShareModifyContent where
  nfsShare : StorageResourceParam
  nfsShareParameters : Option NFSShareParameters := none
deriving DecidableEq

/-- `types.NFSShareModify`: the payload of ModifyNFSShareHostAccess. -/
structure NFSShareModify where
  nfsSharesModifyContent : List NFSShareModifyContent
deriving DecidableEq

/-- `types.NFSShareDelete`: the payload of DeleteNFSShare. -/
structure NFSShareDelete where
  nfsSharesDeleteContent : List NFSShareModifyContent
deriving DecidableEq

/-- The JSON body handed to the executor, one constructor per payload shape
issued by this accessor; `Body.nobody` is the nil body of GET and DELETE. -/
inductive Body where
  | nobody : Body
  | fsCreate : FsCreateParam → Body
  | fsModify : FsModifyParameters → Body
  | shareModify : NFSShareModify → Body
  | shareDelete : NFSShareDelete → Body
deriving DecidableEq

/-- One request handed to the shared HTTP executor. -/
structure Request where
  method : String
  uri : String
  body : Body
deriving DecidableEq

/-- Go errors as observed by callers of this accessor. -/
inductive GoErr where
  | fsNotFound : GoErr
  | msg : String → GoErr
deriving DecidableEq

/-- The message carried by an error, as rendered by the fmt verb v. -/
def errString : GoErr → String
  | .fsNotFound => "Unable to find filesystem"
  | .msg s => s

/-- The shared HTTP executor (`executeWithRetryAuthenticate`) as seen from
the accessor: one handler per response type the call site decodes into. -/
structure Executor where
  fsResp : Request → Except GoErr Filesystem
  nfsResp : Request → Except GoErr NFSShare
  nasResp : Request → Except GoErr NASServer
  poolResp : Request → Except GoErr StoragePool
  licenseResp : Request → Except GoErr LicenseInfo
  unitResp : Request → Except GoErr Unit

/-- `FsNameMaxLength`: the maximum filesystem name length. -/
def FsNameMaxLength : Nat := 63

/-- `AccessType`: the host-access category passed to the share modify. -/
abbrev AccessType := String

def ReadOnlyAccessType : AccessType := "READ_ONLY"
def ReadWriteAccessType : AccessType := "READ_WRITE"
def ReadOnlyRootAccessType : AccessType := "READ_ONLY_ROOT"
def ReadWriteRootAccessType : AccessType := "READ_WRITE_ROOT"

/-- `NFSShareDefaultAccess`: the default-access policy of a new share. -/
abbrev NFSShareDefaultAccess := String

def NoneDefaultAccess : NFSShareDefaultAccess := "0"
def ReadOnlyDefaultAccess : NFSShareDefaultAccess := "1"
def ReadWriteDefaultAccess : NFSShareDefaultAccess := "2"
def ReadOnlyRootDefaultAccess : NFSShareDefaultAccess := "3"
def ReadWriteRootDefaultAccess : NFSShareDefaultAccess := "4"

/-- The GET request issued by FindFilesystemByName. -/
def fsGetByNameReq (filesystemName : String) : Request :=
  ⟨"GET", unityApiGetResourceByNameWithFieldsUri "filesystem" filesystemName fileSystemDisplayFields, .nobody⟩

/-- The GET request issued by FindFilesystemById. -/
def fsGetByIdReq (filesystemId : String) : Request :=
  ⟨"GET", unityApiGetResourceWithFieldsUri "filesystem" filesystemId fileSystemDisplayFields, .nobody⟩

/-- The GET request issued by FindNFSShareByName. -/
def nfsGetByNameReq (nfsSharename : String) : Request :=
  ⟨"GET", unityApiGetResourceByNameWithFieldsUri "nfsShare" nfsSharename nfsShareDisplayfields, .nobody⟩

/-- The GET request issued by FindNFSShareById. -/
def nfsGetByIdReq (nfsShareId : String) : Request :=
  ⟨"GET", unityApiGetResourceWithFieldsUri "nfsShare" nfsShareId nfsShareDisplayfields, .nobody⟩

/-- The GET request issued by FindNASServerById. -/
def nasGetByIdReq (nasServerId : String) : Request :=
  ⟨"GET", unityApiGetResourceWithFieldsUri "nasServer" nasServerId nasServerDisplayfields, .nobody⟩

/-- `FindFilesystemByName`: empty-name validation, one GET, executor failure
collapsed to the `FilesystemNotFoundError` sentinel. -/
def FindFilesystemByName (e : Executor) (filesystemName : String) :
    Except GoErr Filesystem × List Request :=
  if filesystemName.length = 0 then
    (.error (.msg "Filesystem Name shouldn\x27t be empty"), [])
  else
    match e.fsResp (fsGetByNameReq filesystemName) with
    | .error _ => (.error .fsNotFound, [fsGetByNameReq filesystemName])
    | .ok fileSystemResp => (.ok fileSystemResp, [fsGetByNameReq filesystemName])

/-- `FindFilesystemById`: empty-id validation, one GET, executor failure
collapsed to the `FilesystemNotFoundError` sentinel. -/
def FindFilesystemById (e : Executor) (filesystemId : String) :
    Except GoErr Filesystem × List Request :=
  if filesystemId.length = 0 then
    (.error (.msg "Filesystem Id shouldn\x27t be empty"), [])
  else
    match e.fsResp (fsGetByIdReq filesystemId) with
    | .error _ => (.error .fsNotFound, [fsGetByIdReq filesystemId])
    | .ok fileSystemResp => (.ok fileSystemResp, [fsGetByIdReq filesystemId])

/-- `FindNFSShareByName`: empty-name validation, one GET, executor failure
wrapped in a fresh descriptive error. -/
def FindNFSShareByName (e : Executor) (nfsSharename : String) :
    Except GoErr NFSShare × List Request :=
  if nfsSharename.length = 0 then
    (.error (.msg "NFS Share Name shouldn\x27t be empty"), [])
  else
    match e.nfsResp (nfsGetByNameReq nfsSharename) with
    | .error err =>
        (.error (.msg ("Unable to find NFS Share. Error: " ++ errString err)),
         [nfsGetByNameReq nfsSharename])
    | .ok nfsShareResp => (.ok nfsShareResp, [nfsGetByNameReq nfsSharename])

/-- `FindNFSShareById`: empty-id validation, one GET, executor failure
wrapped in a fresh descriptive error. -/
def FindNFSShareById (e : Executor) (nfsShareId : String) :
    Except GoErr NFSShare × List Request :=
  if nfsShareId.length = 0 then
    (.error (.msg "NFS Share Id shouldn\x27t be empty"), [])
  else
    match e.nfsResp (nfsGetByIdReq nfsShareId) with
    | .error err =>
        (.error (.msg ("Unable to find NFS Share: " ++ nfsShareId ++ ". Error: " ++ errString err)),
         [nfsGetByIdReq nfsShareId])
    | .ok nfsShareResp => (.ok nfsShareResp, [nfsGetByIdReq nfsShareId])

/-- `FindNASServerById`: empty-id validation, one GET, executor failure
wrapped in a fresh descriptive error. -/
def FindNASServerById (e : Executor) (nasServerId : String) :
    Except GoErr NASServer × List Request :=
  if nasServerId.length = 0 then
    (.error (.msg "NAS Server Id shouldn\x27t be empty"), [])
  else
    match e.nasResp (nasGetByIdReq nasServerId) with
    | .error err =>
        (.error (.msg ("Unable to find NAS Server: " ++ nasServerId ++ ". Error: " ++ errString err)),
         [nasGetByIdReq nasServerId])
    | .ok nasServerResp => (.ok nasServerResp, [nasGetByIdReq nasServerId])

/-- The GET request issued by the storage-pool lookup. -/
def poolGetReq (poolId : String) : Request :=
  ⟨"GET", unityApiGetResourceWithFieldsUri "pool" poolId "storagePoolDisplayFields", .nobody⟩

/-- The GET request issued by the license lookup for a feature. -/
def licenseGetReq (featureName : String) : Request :=
  ⟨"GET", unityApiGetResourceWithFieldsUri "license" featureName "licenseDisplayFields", .nobody⟩

/-- Modelled from the spec: `FindStoragePoolById` of the storage-pool
accessor (its file is outside the given sources). Per the spec, lookups
validate a non-empty identifier, issue one GET against the templated URI,
and surface failure as a descriptive error; on failure the Go function
returns a nil pool together with the error. -/
def FindStoragePoolById (e : Executor) (poolId : String) :
    Except GoErr StoragePool × List Request :=
  if poolId.length = 0 then
    (.error (.msg "Pool Id shouldn\x27t be empty"), [])
  else
    match e.poolResp (poolGetReq poolId) with
    | .error err =>
        (.error (.msg ("Unable to find StoragePool: " ++ poolId ++ ". Error: " ++ errString err)),
         [poolGetReq poolId])
    | .ok pool => (.ok pool, [poolGetReq poolId])

/-- Modelled from the spec: `isFeatureLicensed` of the volume accessor (its
file is outside the given sources). Per the spec, creation looks up the
licensing flags of an optional feature, surfacing failure as an error. -/
def isFeatureLicensed (e : Executor) (featureName : String) :
    Except GoErr LicenseInfo × List Request :=
  match e.licenseResp (licenseGetReq featureName) with
  | .error err =>
      (.error (.msg ("Unable to get license info. Error: " ++ errString err)),
       [licenseGetReq featureName])
  | .ok licenseInfo => (.ok licenseInfo, [licenseGetReq featureName])

/-- `strconv.FormatBool`. -/
def formatBool (b : Bool) : String := if b then "true" else "false"

/-- The POST request issued by CreateFilesystem against the
createFilesystem storage-resource action. -/
def createFsReq (fileReqParam : FsCreateParam) : Request :=
  ⟨"POST", unityApiStorageResourceActionUri "createFilesystem", .fsCreate fileReqParam⟩

/-- The body of `CreateFilesystem` after the two name validations: pool
lookup, payload construction, the two license lookups, the licensing
checks, the FastVP check, and the createFilesystem POST, mirroring the
source order (Go mutation of `fsParams` is threaded functionally). -/
def createFilesystemBody (e : Executor) (name storagepool description nasServer : String)
    (size : Nat) (tieringPolicy hostIOSize supportedProtocol : Int)
    (isThinEnabled isDataReductionEnabled : Bool) :
    Except GoErr Filesystem × List Request :=
  match FindStoragePoolById e storagepool with
  | (.error err, tr0) =>
      (.error (.msg ("unable to get PoolID (" ++ storagepool ++ ") Error:" ++ errString err)), tr0)
  | (.ok pool, tr0) =>
    let storagePool : StoragePoolID := ⟨storagepool⟩
    let fileEventSettings : FileEventSettings := ⟨false, true⟩
    let nas : NasServerID := ⟨nasServer⟩
    let fsParams : FsParameters :=
      { storagePool := storagePool
        size := size
        supportedProtocol := supportedProtocol
        hostIOSize := hostIOSize
        nasServer := nas
        fileEventSettings := fileEventSettings }
    match isFeatureLicensed e thinProvisioning with
    | (.error _, tr1) =>
        (.error (.msg ("Unable to get license info for feature: " ++ thinProvisioning)), tr0 ++ tr1)
    | (.ok thinProvisioningLicenseInfoResp, tr1) =>
      match isFeatureLicensed e dataReduction with
      | (.error _, tr2) =>
          (.error (.msg ("Unable to get license info for feature: " ++ dataReduction)),
           tr0 ++ tr1 ++ tr2)
      | (.ok dataReductionLicenseInfoResp, tr2) =>
        let tr := tr0 ++ tr1 ++ tr2
        let thinStep : Except GoErr FsParameters :=
          if thinProvisioningLicenseInfoResp.licenseInfoContent.isInstalled
              && thinProvisioningLicenseInfoResp.licenseInfoContent.isValid then
            .ok { fsParams with isThinEnabled := formatBool isThinEnabled }
          else if isThinEnabled = true then
            .error (.msg "Thin Provisioning is not supported on array and hence cannot create Filesystem.")
          else
            .ok fsParams
        match thinStep with
        | .error er => (.error er, tr)
        | .ok fsParams1 =>
          let drStep : Except GoErr FsParameters :=
            if dataReductionLicenseInfoResp.licenseInfoContent.isInstalled
                && dataReductionLicenseInfoResp.licenseInfoContent.isValid then
              .ok { fsParams1 with isDataReductionEnabled := formatBool isDataReductionEnabled }
            else if isDataReductionEnabled = true then
              .error (.msg "Data Reduction is not supported on array and hence cannot create Filesystem.")
            else
              .ok fsParams1
          match drStep with
          | .error er => (.error er, tr)
          | .ok fsParams2 =>
            let fsParams3 : FsParameters :=
              if pool.storagePoolContent.poolFastVP.status ≠ 0 then
                { fsParams2 with fastVPParameters := some ⟨tieringPolicy⟩ }
              else
                fsParams2
            let fileReqParam : FsCreateParam := ⟨name, description, fsParams3⟩
            match e.fsResp (createFsReq fileReqParam) with
            | .error err => (.error err, tr ++ [createFsReq fileReqParam])
            | .ok fileResp => (.ok fileResp, tr ++ [createFsReq fileReqParam])

/-- `CreateFilesystem`: the two name validations followed by
`createFilesystemBody`. -/
def CreateFilesystem (e : Executor) (name storagepool description nasServer : String)
    (size : Nat) (tieringPolicy hostIOSize supportedProtocol : Int)
    (isThinEnabled isDataReductionEnabled : Bool) :
    Except GoErr Filesystem × List Request :=
  if name = "" then
    (.error (.msg "filesystem name should not be empty."), [])
  else if name.length > FsNameMaxLength then
    (.error (.msg ("filesystem name " ++ name ++ " should not exceed "
      ++ toString FsNameMaxLength ++ " characters.")), [])
  else
    createFilesystemBody e name storagepool description nasServer size
      tieringPolicy hostIOSize supportedProtocol isThinEnabled isDataReductionEnabled

/-- The DELETE request issued by DeleteFilesystem for a storage resource. -/
def deleteFsReq (resourceID : String) : Request :=
  ⟨"DELETE", unityApiGetResourceUri "storageResource" resourceID, .nobody⟩

/-- `DeleteFilesystem`: empty-id validation, lookup of the target (sentinel
on failure), then the DELETE against the storage resource. -/
def DeleteFilesystem (e : Executor) (filesystemId : String) :
    Except GoErr Unit × List Request :=
  if filesystemId.length = 0 then
    (.error (.msg "Filesystem Id cannot be empty"), [])
  else
    match FindFilesystemById e filesystemId with
    | (.error _, tr) => (.error .fsNotFound, tr)
    | (.ok filesystemResp, tr) =>
      let resourceID := filesystemResp.fileContent.storageResource.id
      match e.unitResp (deleteFsReq resourceID) with
      | .error deleteErr =>
          (.error (.msg ("Delete Filesystem " ++ filesystemId ++ " Failed. Error: "
            ++ errString deleteErr)), tr ++ [deleteFsReq resourceID])
      | .ok _ => (.ok (), tr ++ [deleteFsReq resourceID])

/-- The modify-filesystem POST issued by CreateNFSShare: one new share with
the given name, path, and default access. -/
def createShareReq (resourceID name path : String)
    (nfsShareDefaultAccess : NFSShareDefaultAccess) : Request :=
  let nfsShareParam : NFSShareParameters := { defaultAccess := nfsShareDefaultAccess }
  let nfsShareCreateReqParam : NFSShareCreateParam := ⟨name, path, nfsShareParam⟩
  let filesystemModifyParam : FsModifyParameters := ⟨[nfsShareCreateReqParam]⟩
  ⟨"POST", unityModifyFilesystemUri resourceID, .fsModify filesystemModifyParam⟩

/-- `CreateNFSShare`: empty-id validation, lookup of the parent filesystem,
modify-filesystem POST adding the share, then a second lookup whose result
is returned. -/
def CreateNFSShare (e : Executor) (name path filesystemId : String)
    (nfsShareDefaultAccess : NFSShareDefaultAccess) :
    Except GoErr Filesystem × List Request :=
  if filesystemId.length = 0 then
    (.error (.msg "Filesystem Id cannot be empty"), [])
  else
    match FindFilesystemById e filesystemId with
    | (.error _, tr) => (.error .fsNotFound, tr)
    | (.ok filesystemResp, tr1) =>
      let resourceID := filesystemResp.fileContent.storageResource.id
      let req := createShareReq resourceID name path nfsShareDefaultAccess
      match e.unitResp req with
      | .error err =>
          (.error (.msg ("Create NFS Share failed. Error: " ++ errString err)), tr1 ++ [req])
      | .ok _ =>
        match FindFilesystemById e filesystemId with
        | (.error _, tr2) => (.error .fsNotFound, tr1 ++ [req] ++ tr2)
        | (.ok filesystemResp2, tr2) => (.ok filesystemResp2, tr1 ++ [req] ++ tr2)

/-- The share parameters built by ModifyNFSShareHostAccess: the if/else
chain over the access type, populating exactly one host-access list and
treating every unrecognized access type as root access. -/
def modifyShareParameters (hostIds : List String) (accessType : AccessType) :
    NFSShareParameters :=
  let hostsIdsContent : List HostIdContent := hostIds.map HostIdContent.mk
  if accessType = ReadOnlyAccessType then
    { readOnlyHosts := some hostsIdsContent }
  else if accessType = ReadWriteAccessType then
    { readWriteHosts := some hostsIdsContent }
  else if accessType = ReadOnlyRootAccessType then
    { readOnlyRootAccessHosts := some hostsIdsContent }
  else
    { rootAccessHosts := some hostsIdsContent }

/-- The modify-filesystem POST issued by ModifyNFSShareHostAccess. -/
def modifyShareReq (resourceID nfsShareId : String) (hostIds : List String)
    (accessType : AccessType) : Request :=
  let nfsShare : StorageResourceParam := ⟨nfsShareId⟩
  let nfsShareModifyContent : NFSShareModifyContent :=
    ⟨nfsShare, some (modifyShareParameters hostIds accessType)⟩
  let nfsShareModifyReq : NFSShareModify := ⟨[nfsShareModifyContent]⟩
  ⟨"POST", unityModifyFilesystemUri resourceID, .shareModify nfsShareModifyReq⟩

/-- `ModifyNFSShareHostAccess`: empty-filesystem-id validation (the share
id is not validated), lookup of the parent filesystem, then the
modify-filesystem POST carrying the single populated host-access list. -/
def ModifyNFSShareHostAccess (e : Executor) (filesystemId nfsShareId : String)
    (hostIds : List String) (accessType : AccessType) :
    Except GoErr Unit × List Request :=
  if filesystemId.length = 0 then
    (.error (.msg "Filesystem Id cannot be empty"), [])
  else
    match FindFilesystemById e filesystemId with
    | (.error _, tr) => (.error .fsNotFound, tr)
    | (.ok filesystemResp, tr1) =>
      let resourceID := filesystemResp.fileContent.storageResource.id
      let req := modifyShareReq resourceID nfsShareId hostIds accessType
      match e.unitResp req with
      | .error err =>
          (.error (.msg ("Modify NFS Share failed. Error: " ++ errString err)), tr1 ++ [req])
      | .ok _ => (.ok (), tr1 ++ [req])

/-- The modify-filesystem POST issued by DeleteNFSShare: the share
reference with nil parameters. -/
def deleteShareReq (resourceID nfsShareId : String) : Request :=
  let nfsShare : StorageResourceParam := ⟨nfsShareId⟩
  let nfsShareDeleteContent : NFSShareModifyContent := ⟨nfsShare, none⟩
  let nfsShareDeleteReq : NFSShareDelete := ⟨[nfsShareDeleteContent]⟩
  ⟨"POST", unityModifyFilesystemUri resourceID, .shareDelete nfsShareDeleteReq⟩

/-- `DeleteNFSShare`: empty-filesystem-id validation, lookup of the parent
filesystem, empty-share-id validation (only after that lookup), lookup of
the share, then the modify-filesystem POST deleting the share. -/
def DeleteNFSShare (e : Executor) (filesystemId nfsShareId : String) :
    Except GoErr Unit × List Request :=
  if filesystemId.length = 0 then
    (.error (.msg "Filesystem Id cannot be empty"), [])
  else
    match FindFilesystemById e filesystemId with
    | (.error _, tr) => (.error .fsNotFound, tr)
    | (.ok filesystemResp, tr1) =>
      let resourceID := filesystemResp.fileContent.storageResource.id
      if nfsShareId.length = 0 then
        (.error (.msg "NFS Share Id cannot be empty"), tr1)
      else
        match FindNFSShareById e nfsShareId with
        | (.error err, tr2) =>
            (.error (.msg ("Unable to find NFS Share. Error: " ++ errString err)), tr1 ++ tr2)
        | (.ok _, tr2) =>
          let req := deleteShareReq resourceID nfsShareId
          match e.unitResp req with
          | .error deleteErr =>
              (.error (.msg ("Delete NFS Share: " ++ nfsShareId ++ " Failed. Error: "
                ++ errString deleteErr)), tr1 ++ tr2 ++ [req])
          | .ok _ => (.ok (), tr1 ++ tr2 ++ [req])

/-- Go `bufio.ScanLines` dropCR helper: strip one trailing carriage return. -/
def dropCR (l : List Char) : List Char :=
  if l.getLast? = some '\x0d' then l.dropLast else l

/-- Split a character list at every newline; the fragment after the last
newline (possibly empty) is also returned. -/
def splitOnNewline : List Char → List (List Char)
  | [] => [[]]
  | c :: cs =>
    if c = '\n' then [] :: splitOnNewline cs
    else
      match splitOnNewline cs with
      | [] => [[c]]
      | l :: ls => (c :: l) :: ls

/-- The lines a `bufio.Scanner` with the default `ScanLines` split yields on
the given text: tokens are separated by newlines, a final fragment without a
trailing newline is still a token, empty input yields no token, and each
token has one trailing carriage return stripped. -/
def scanLines (s : String) : List String :=
  let parts := splitOnNewline s.data
  ((if parts.getLast? = some [] then parts.dropLast else parts).map
    (fun l => String.mk (dropCR l)))

/-- The loop body of `WriteIndentedN` on the current line and the remaining
lines of the scanner: write n spaces, write the line, and write a newline
exactly when another line follows. The byte writer is modelled as the
string written so far, a writer that cannot fail (the only writers used by
this package are in-memory buffers, whose writes never return an error). -/
def indentLoop (n : Nat) (l : String) : List String → String
  | [] => String.mk (List.replicate n ' ') ++ l
  | l2 :: rest => String.mk (List.replicate n ' ') ++ l ++ "\n" ++ indentLoop n l2 rest

/-- `WriteIndentedN`: indent all lines of b by n spaces; with no lines,
nothing is written. -/
def writeIndentedN (b : String) (n : Nat) : String :=
  match scanLines b with
  | [] => ""
  | l :: rest => indentLoop n l rest

/-- `WriteIndented`: indent all lines four spaces. -/
def writeIndented (b : String) : String := writeIndentedN b 4

/-- HTTP headers as an association list of key and value. -/
abbrev Header := List (String × String)

/-- Go `http.Header.Get`: the first value for the key, or the empty string. -/
def headerGet (h : Header) (key : String) : String :=
  match h.find? (fun kv => kv.fst = key) with
  | some kv => kv.snd
  | none => ""

/-- Modelled from the spec: the header key constant `HeaderKeyContentType`
of the api package (outside the given sources). -/
def HeaderKeyContentType : String := "Content-Type"

/-- Modelled from the spec: the header value constant
`headerValContentTypeBinaryOctetStream` of the api package. -/
def headerValContentTypeBinaryOctetStream : String := "binary/octet-stream"

/-- `isBinOctetBody`: the Content-Type header equals the binary octet
stream value. -/
def isBinOctetBody (h : Header) : Bool :=
  headerGet h HeaderKeyContentType = headerValContentTypeBinaryOctetStream

/-- An HTTP message (request or response) as the logging helpers see it:
its headers, the dump of its request or status line and headers, and the
dump of its body. -/
structure HttpMessage where
  header : Header
  headText : String
  bodyText : String

/-- Modelled from the spec: `httputil.DumpRequest` and
`httputil.DumpResponse` (standard library, outside the given sources)
render the message; the body is appended exactly when the body flag is
set. -/
def dumpMessage (m : HttpMessage) (body : Bool) : String :=
  m.headText ++ (if body then m.bodyText else "")

/-- The observable outcome of a logging helper: the final contents of its
local buffer w and the messages it handed to the logger, in order. -/
structure LogEffect where
  rendered : String
  emitted : List String
deriving DecidableEq

/-- The banner logRequest writes into its buffer before the dump. -/
def requestBanner : String :=
  "\n    -------------------------- GOUNITY HTTP REQUEST -------------------------\n"

/-- The banner logResponse writes into its buffer before the dump. -/
def responseBanner : String :=
  "\n    -------------------------- GOUNITY HTTP RESPONSE -------------------------\n"

/-- `logRequest`: write the banner, dump the request with body capture
suppressed for a binary octet stream, indent the dump into the buffer, and
return without handing anything to the logger (the debug emission in the
source is commented out to avoid logging headers). The dump function is a
parameter so that a failing dump, which makes the source return early, is
representable; indentation into the in-memory buffer cannot fail, so the
error branch after WriteIndented is dead. -/
def logRequest (dump : HttpMessage → Bool → Except String String)
    (req : HttpMessage) : LogEffect :=
  match dump req (!(isBinOctetBody req.header)) with
  | .error _ => { rendered := requestBanner, emitted := [] }
  | .ok buf => { rendered := requestBanner ++ writeIndented buf ++ "\n", emitted := [] }

/-- `logResponse`: write the banner, dump the response with body capture
suppressed for a binary octet stream, indent the dump into a second buffer,
copy it line by line into the main buffer with a newline after each line,
and hand the buffer to the debug logger. -/
def logResponse (dump : HttpMessage → Bool → Except String String)
    (res : HttpMessage) : LogEffect :=
  match dump res (!(isBinOctetBody res.header)) with
  | .error _ => { rendered := responseBanner, emitted := [] }
  | .ok buf =>
    let bw := writeIndented buf
    let w := responseBanner ++ String.join ((scanLines bw).map (fun l => l ++ "\n"))
    { rendered := w, emitted := [w] }

/-- A filesystem whose storage-resource id is sv_1, as a mock response. -/
def fs1 : Filesystem := ⟨⟨⟨"sv_1"⟩⟩⟩

/-- A license that is installed and valid, as a mock response. -/
def licOk : LicenseInfo := ⟨⟨true, true⟩⟩

/-- A license that is not installed, as a mock response. -/
def licMissing : LicenseInfo := ⟨⟨false, false⟩⟩

/-- A storage pool with FastVP enabled, as a mock response. -/
def pool1 : StoragePool := ⟨⟨⟨1⟩⟩⟩

/-- A mock executor that answers every request successfully. -/
def execAllOk : Executor :=
  ⟨fun _ => .ok fs1, fun _ => .ok ⟨"sh_1"⟩, fun _ => .ok ⟨"nas_1"⟩,
   fun _ => .ok pool1, fun _ => .ok licOk, fun _ => .ok ()⟩

/-- A mock executor that fails every request. -/
def execAllFail : Executor :=
  ⟨fun _ => .error (.msg "boom"), fun _ => .error (.msg "boom"),
   fun _ => .error (.msg "boom"), fun _ => .error (.msg "boom"),
   fun _ => .error (.msg "boom"), fun _ => .error (.msg "boom")⟩

/-- A mock executor where filesystem lookups succeed and every other
request fails. -/
def execFsOkRestFail : Executor :=
  ⟨fun _ => .ok fs1, fun _ => .error (.msg "boom"),
   fun _ => .error (.msg "boom"), fun _ => .error (.msg "boom"),
   fun _ => .error (.msg "boom"), fun _ => .error (.msg "boom")⟩

/-- A mock executor where the thin-provisioning license is missing and
everything else succeeds. -/
def execNoThinLicense : Executor :=
  ⟨fun _ => .ok fs1, fun _ => .ok ⟨"sh_1"⟩, fun _ => .ok ⟨"nas_1"⟩,
   fun _ => .ok pool1,
   fun r => if r = licenseGetReq thinProvisioning then .ok licMissing else .ok licOk,
   fun _ => .ok ()⟩

/-- A mock executor where the data-reduction license is missing and
everything else succeeds. -/
def execNoDataReductionLicense : Executor :=
  ⟨fun _ => .ok fs1, fun _ => .ok ⟨"sh_1"⟩, fun _ => .ok ⟨"nas_1"⟩,
   fun _ => .ok pool1,
   fun r => if r = licenseGetReq dataReduction then .ok licMissing else .ok licOk,
   fun _ => .ok ()⟩

/-- A mock executor where every license is missing and everything else
succeeds. -/
def execNoLicenses : Executor :=
  ⟨fun _ => .ok fs1, fun _ => .ok ⟨"sh_1"⟩, fun _ => .ok ⟨"nas_1"⟩,
   fun _ => .ok pool1, fun _ => .ok licMissing, fun _ => .ok ()⟩

theorem findFilesystemById_ok (e : Executor) (filesystemId : String) (fs : Filesystem)
    (hne : filesystemId.length ≠ 0)
    (h : e.fsResp (fsGetByIdReq filesystemId) = .ok fs) :
    FindFilesystemById e filesystemId = (.ok fs, [fsGetByIdReq filesystemId]) := by
  simp [FindFilesystemById, hne, h]

theorem findFilesystemById_err (e : Executor) (filesystemId : String) (er : GoErr)
    (hne : filesystemId.length ≠ 0)
    (h : e.fsResp (fsGetByIdReq filesystemId) = .error er) :
    FindFilesystemById e filesystemId = (.error .fsNotFound, [fsGetByIdReq filesystemId]) := by
  simp [FindFilesystemById, hne, h]

theorem findNFSShareById_ok (e : Executor) (nfsShareId : String) (sh : NFSShare)
    (hne : nfsShareId.length ≠ 0)
    (h : e.nfsResp (nfsGetByIdReq nfsShareId) = .ok sh) :
    FindNFSShareById e nfsShareId = (.ok sh, [nfsGetByIdReq nfsShareId]) := by
  simp [FindNFSShareById, hne, h]

theorem findNFSShareById_err (e : Executor) (nfsShareId : String) (er : GoErr)
    (hne : nfsShareId.length ≠ 0)
    (h : e.nfsResp (nfsGetByIdReq nfsShareId) = .error er) :
    FindNFSShareById e nfsShareId
      = (.error (.msg ("Unable to find NFS Share: " ++ nfsShareId ++ ". Error: " ++ errString er)),
         [nfsGetByIdReq nfsShareId]) := by
  simp [FindNFSShareById, hne, h]

/-- C1 counterexample: the claim says every operation given an empty
relevant identifier returns a validation error while performing no network
call, yet `DeleteNFSShare` with a non-empty filesystem id and an empty NFS
share id returns the empty-share-id validation error only after one
executor call, the filesystem lookup. -/
theorem c1_counterexample :
    (DeleteNFSShare execAllOk "fs_1" "").1 = .error (.msg "NFS Share Id cannot be empty")
    ∧ (DeleteNFSShare execAllOk "fs_1" "").2 ≠ [] := by
  decide

/-- C1 (amended): every operation returns a validation error without any
executor call when the identifier it validates first is empty; however,
`DeleteNFSShare` detects an empty NFS share id only after the filesystem
lookup, so that validation error is returned after exactly one executor
call (and `ModifyNFSShareHostAccess` never validates the share id). -/
theorem c1_empty_identifier_validation (e : Executor)
    (name path description nasServer filesystemId nfsShareId storagepool : String)
    (hostIds : List String) (accessType : AccessType)
    (defaultAccess : NFSShareDefaultAccess)
    (size : Nat) (tieringPolicy hostIOSize supportedProtocol : Int)
    (thin dr : Bool) :
    FindFilesystemByName e "" = (.error (.msg "Filesystem Name shouldn\x27t be empty"), [])
    ∧ FindFilesystemById e "" = (.error (.msg "Filesystem Id shouldn\x27t be empty"), [])
    ∧ CreateFilesystem e "" storagepool description nasServer size tieringPolicy
        hostIOSize supportedProtocol thin dr
        = (.error (.msg "filesystem name should not be empty."), [])
    ∧ DeleteFilesystem e "" = (.error (.msg "Filesystem Id cannot be empty"), [])
    ∧ CreateNFSShare e name path "" defaultAccess
        = (.error (.msg "Filesystem Id cannot be empty"), [])
    ∧ FindNFSShareByName e "" = (.error (.msg "NFS Share Name shouldn\x27t be empty"), [])
    ∧ FindNFSShareById e "" = (.error (.msg "NFS Share Id shouldn\x27t be empty"), [])
    ∧ ModifyNFSShareHostAccess e "" nfsShareId hostIds accessType
        = (.error (.msg "Filesystem Id cannot be empty"), [])
    ∧ DeleteNFSShare e "" nfsShareId = (.error (.msg "Filesystem Id cannot be empty"), [])
    ∧ FindNASServerById e "" = (.error (.msg "NAS Server Id shouldn\x27t be empty"), [])
    ∧ (∀ fs : Filesystem, filesystemId.length ≠ 0 →
        e.fsResp (fsGetByIdReq filesystemId) = .ok fs →
        DeleteNFSShare e filesystemId ""
          = (.error (.msg "NFS Share Id cannot be empty"), [fsGetByIdReq filesystemId])) := by
  refine ⟨rfl, rfl, rfl, rfl, rfl, rfl, rfl, rfl, rfl, rfl, ?_⟩
  intro fs hne hok
  simp [DeleteNFSShare, hne, findFilesystemById_ok e filesystemId fs hne hok]

theorem c1_empty_identifier_validation_witness :
    FindFilesystemById execAllOk "" = (.error (.msg "Filesystem Id shouldn\x27t be empty"), [])
    ∧ DeleteNFSShare execAllOk "fs_1" ""
        = (.error (.msg "NFS Share Id cannot be empty"), [fsGetByIdReq "fs_1"]) := by
  obtain ⟨-, h2, -, -, -, -, -, -, -, -, h11⟩ :=
    c1_empty_identifier_validation execAllOk "n" "p" "d" "nas" "fs_1" "sh_1" "pool_1"
      [] ReadOnlyAccessType ReadOnlyDefaultAccess 0 0 0 0 false false
  exact ⟨h2, h11 fs1 (by decide) rfl⟩

/-- C2: deleting a filesystem whose lookup fails returns the
`FilesystemNotFoundError` sentinel with a trace holding only the lookup
GET, so no delete request reaches the executor; deleting an NFS share
whose share lookup fails returns the wrapped not-found error with a trace
holding only the two lookup GETs, so no delete POST reaches the executor. -/
theorem c2_delete_requires_existing (e : Executor) (filesystemId nfsShareId : String)
    (er er2 : GoErr) (fs : Filesystem) :
    (filesystemId.length ≠ 0 →
      e.fsResp (fsGetByIdReq filesystemId) = .error er →
      DeleteFilesystem e filesystemId = (.error .fsNotFound, [fsGetByIdReq filesystemId]))
    ∧ (filesystemId.length ≠ 0 → nfsShareId.length ≠ 0 →
      e.fsResp (fsGetByIdReq filesystemId) = .ok fs →
      e.nfsResp (nfsGetByIdReq nfsShareId) = .error er2 →
      DeleteNFSShare e filesystemId nfsShareId
        = (.error (.msg ("Unable to find NFS Share. Error: "
            ++ ("Unable to find NFS Share: " ++ nfsShareId ++ ". Error: " ++ errString er2))),
           [fsGetByIdReq filesystemId, nfsGetByIdReq nfsShareId])) := by
  constructor
  · intro hne herr
    simp [DeleteFilesystem, hne, findFilesystemById_err e filesystemId er hne herr]
  · intro hne hsne hok herr
    simp [DeleteNFSShare, hne, hsne,
      findFilesystemById_ok e filesystemId fs hne hok,
      findNFSShareById_err e nfsShareId er2 hsne herr, errString]

theorem c2_delete_requires_existing_witness :
    DeleteFilesystem execAllFail "fs_1" = (.error .fsNotFound, [fsGetByIdReq "fs_1"])
    ∧ DeleteNFSShare execFsOkRestFail "fs_1" "sh_1"
        = (.error (.msg ("Unable to find NFS Share. Error: "
            ++ ("Unable to find NFS Share: " ++ "sh_1" ++ ". Error: " ++ errString (.msg "boom")))),
           [fsGetByIdReq "fs_1", nfsGetByIdReq "sh_1"]) := by
  refine ⟨?_, ?_⟩
  · exact (c2_delete_requires_existing execAllFail "fs_1" "sh_1" (.msg "boom") (.msg "boom") fs1).1
      (by decide) rfl
  · exact (c2_delete_requires_existing execFsOkRestFail "fs_1" "sh_1" (.msg "boom") (.msg "boom") fs1).2
      (by decide) (by decide) rfl rfl

theorem findStoragePoolById_ok (e : Executor) (poolId : String) (p : StoragePool)
    (hne : poolId.length ≠ 0)
    (h : e.poolResp (poolGetReq poolId) = .ok p) :
    FindStoragePoolById e poolId = (.ok p, [poolGetReq poolId]) := by
  simp [FindStoragePoolById, hne, h]

theorem isFeatureLicensed_ok (e : Executor) (featureName : String) (lic : LicenseInfo)
    (h : e.licenseResp (licenseGetReq featureName) = .ok lic) :
    isFeatureLicensed e featureName = (.ok lic, [licenseGetReq featureName]) := by
  simp [isFeatureLicensed, h]

/-- C3: with a valid name and a resolvable pool, requesting thin
provisioning without an installed-and-valid thin license makes
CreateFilesystem return the thin-provisioning error; and requesting data
reduction without an installed-and-valid data-reduction license makes it
return the data-reduction error whenever the call reaches that gate,
which happens exactly when the thin gate does not fire first, that is
when the thin license is installed and valid or thin provisioning is not
requested. In every case the trace holds exactly the pool lookup and the
two license lookups, all GETs, so the createFilesystem POST endpoint is
never called. -/
theorem c3_license_gates_creation (e : Executor)
    (name storagepool description nasServer : String) (size : Nat)
    (tieringPolicy hostIOSize supportedProtocol : Int) (thin dr : Bool)
    (p : StoragePool) (licT licD : LicenseInfo)
    (hn1 : ¬ name = "") (hn2 : ¬ name.length > FsNameMaxLength)
    (hpne : storagepool.length ≠ 0)
    (hp : e.poolResp (poolGetReq storagepool) = .ok p)
    (hT : e.licenseResp (licenseGetReq thinProvisioning) = .ok licT)
    (hD : e.licenseResp (licenseGetReq dataReduction) = .ok licD) :
    ((licT.licenseInfoContent.isInstalled && licT.licenseInfoContent.isValid) = false →
      CreateFilesystem e name storagepool description nasServer size tieringPolicy
          hostIOSize supportedProtocol true dr
        = (.error (.msg "Thin Provisioning is not supported on array and hence cannot create Filesystem."),
           [poolGetReq storagepool, licenseGetReq thinProvisioning, licenseGetReq dataReduction])
      ∧ ∀ r ∈ (CreateFilesystem e name storagepool description nasServer size tieringPolicy
          hostIOSize supportedProtocol true dr).2, r.method = "GET")
    ∧ (((licT.licenseInfoContent.isInstalled && licT.licenseInfoContent.isValid) = true
          ∨ thin = false) →
       (licD.licenseInfoContent.isInstalled && licD.licenseInfoContent.isValid) = false →
      CreateFilesystem e name storagepool description nasServer size tieringPolicy
          hostIOSize supportedProtocol thin true
        = (.error (.msg "Data Reduction is not supported on array and hence cannot create Filesystem."),
           [poolGetReq storagepool, licenseGetReq thinProvisioning, licenseGetReq dataReduction])
      ∧ ∀ r ∈ (CreateFilesystem e name storagepool description nasServer size tieringPolicy
          hostIOSize supportedProtocol thin true).2, r.method = "GET") := by
  constructor
  · intro hlic
    have heq : CreateFilesystem e name storagepool description nasServer size tieringPolicy
        hostIOSize supportedProtocol true dr
        = (.error (.msg "Thin Provisioning is not supported on array and hence cannot create Filesystem."),
           [poolGetReq storagepool, licenseGetReq thinProvisioning, licenseGetReq dataReduction]) := by
      simp [CreateFilesystem, hn1, hn2, createFilesystemBody,
        findStoragePoolById_ok e storagepool p hpne hp,
        isFeatureLicensed_ok e thinProvisioning licT hT,
        isFeatureLicensed_ok e dataReduction licD hD, hlic]
    refine ⟨heq, ?_⟩
    rw [heq]
    intro r hr
    simp [poolGetReq, licenseGetReq] at hr
    rcases hr with h | h | h <;> simp [h, poolGetReq, licenseGetReq]
  · intro hlicT hlicD
    have heq : CreateFilesystem e name storagepool description nasServer size tieringPolicy
        hostIOSize supportedProtocol thin true
        = (.error (.msg "Data Reduction is not supported on array and hence cannot create Filesystem."),
           [poolGetReq storagepool, licenseGetReq thinProvisioning, licenseGetReq dataReduction]) := by
      rcases hlicT with hlicT | hlicT
      · simp [CreateFilesystem, hn1, hn2, createFilesystemBody,
          findStoragePoolById_ok e storagepool p hpne hp,
          isFeatureLicensed_ok e thinProvisioning licT hT,
          isFeatureLicensed_ok e dataReduction licD hD, hlicT, hlicD]
      · subst hlicT
        by_cases hthin : (licT.licenseInfoContent.isInstalled
            && licT.licenseInfoContent.isValid) = true <;>
          simp [CreateFilesystem, hn1, hn2, createFilesystemBody,
            findStoragePoolById_ok e storagepool p hpne hp,
            isFeatureLicensed_ok e thinProvisioning licT hT,
            isFeatureLicensed_ok e dataReduction licD hD, hthin, hlicD]
    refine ⟨heq, ?_⟩
    rw [heq]
    intro r hr
    simp [poolGetReq, licenseGetReq] at hr
    rcases hr with h | h | h <;> simp [h, poolGetReq, licenseGetReq]

theorem c3_license_gates_creation_witness :
    CreateFilesystem execNoThinLicense "fsname" "pool_1" "d" "nas_1" 100 1 8192 1 true false
      = (.error (.msg "Thin Provisioning is not supported on array and hence cannot create Filesystem."),
         [poolGetReq "pool_1", licenseGetReq thinProvisioning, licenseGetReq dataReduction])
    ∧ CreateFilesystem execNoDataReductionLicense "fsname" "pool_1" "d" "nas_1" 100 1 8192 1 false true
      = (.error (.msg "Data Reduction is not supported on array and hence cannot create Filesystem."),
         [poolGetReq "pool_1", licenseGetReq thinProvisioning, licenseGetReq dataReduction])
    ∧ CreateFilesystem execNoLicenses "fsname" "pool_1" "d" "nas_1" 100 1 8192 1 false true
      = (.error (.msg "Data Reduction is not supported on array and hence cannot create Filesystem."),
         [poolGetReq "pool_1", licenseGetReq thinProvisioning, licenseGetReq dataReduction]) := by
  refine ⟨?_, ?_, ?_⟩
  · exact ((c3_license_gates_creation execNoThinLicense "fsname" "pool_1" "d" "nas_1" 100 1 8192 1
      true false pool1 licMissing licOk (by decide) (by decide) (by decide)
      rfl (by decide) (by decide)).1 (by decide)).1
  · exact ((c3_license_gates_creation execNoDataReductionLicense "fsname" "pool_1" "d" "nas_1" 100 1 8192 1
      false true pool1 licOk licMissing (by decide) (by decide) (by decide)
      rfl (by decide) (by decide)).2 (Or.inl (by decide)) (by decide)).1
  · exact ((c3_license_gates_creation execNoLicenses "fsname" "pool_1" "d" "nas_1" 100 1 8192 1
      false true pool1 licMissing licMissing (by decide) (by decide) (by decide)
      rfl rfl rfl).2 (Or.inr rfl) (by decide)).1

/-- C4: with an executor answering the filesystem lookup of fs_1 with a
filesystem whose storage-resource id is sv_1 and accepting the modify
POST, CreateNFSShare issues exactly the lookup GET, the modify POST on the
modify-filesystem URI templated with sv_1 carrying the share name, path
and default access, and a second lookup GET, returning the filesystem of
that second lookup. -/
theorem c4_createNFSShare_scenario (e : Executor) (fs : Filesystem)
    (hfs : e.fsResp (fsGetByIdReq "fs_1") = .ok fs)
    (hid : fs.fileContent.storageResource.id = "sv_1")
    (hmod : e.unitResp (createShareReq "sv_1" "share1" "/path" ReadOnlyDefaultAccess) = .ok ()) :
    CreateNFSShare e "share1" "/path" "fs_1" ReadOnlyDefaultAccess
      = (.ok fs, [fsGetByIdReq "fs_1",
                  createShareReq "sv_1" "share1" "/path" ReadOnlyDefaultAccess,
                  fsGetByIdReq "fs_1"]) := by
  have h1 := findFilesystemById_ok e "fs_1" fs (by decide) hfs
  have hne : ¬ ("fs_1".length = 0) := by decide
  simp [CreateNFSShare, h1, hid, hmod, hne]

theorem c4_createNFSShare_scenario_witness :
    CreateNFSShare execAllOk "share1" "/path" "fs_1" ReadOnlyDefaultAccess
      = (.ok fs1, [fsGetByIdReq "fs_1",
                   createShareReq "sv_1" "share1" "/path" ReadOnlyDefaultAccess,
                   fsGetByIdReq "fs_1"]) :=
  c4_createNFSShare_scenario execAllOk fs1 rfl rfl rfl

/-- How many of the four host-access lists of a share-parameters payload
are populated. -/
def populatedCount (p : NFSShareParameters) : Nat :=
  (if p.readOnlyHosts.isSome then 1 else 0)
  + (if p.readWriteHosts.isSome then 1 else 0)
  + (if p.readOnlyRootAccessHosts.isSome then 1 else 0)
  + (if p.rootAccessHosts.isSome then 1 else 0)

/-- C5: a READ_ONLY host-access modification issues, after the filesystem
lookup, a modify POST whose payload populates only the read-only host list
with the given hosts (the other three lists are absent and the default
access field is empty); and on every call, whatever the access type,
exactly one of the four host-access lists is populated. -/
theorem c5_read_only_populates_only_read_only (e : Executor)
    (filesystemId nfsShareId : String) (hostIds : List String) (fs : Filesystem)
    (hne : filesystemId.length ≠ 0)
    (hfs : e.fsResp (fsGetByIdReq filesystemId) = .ok fs) :
    (ModifyNFSShareHostAccess e filesystemId nfsShareId hostIds ReadOnlyAccessType).2
      = [fsGetByIdReq filesystemId,
         ⟨"POST", unityModifyFilesystemUri fs.fileContent.storageResource.id,
          .shareModify ⟨[⟨⟨nfsShareId⟩,
            some { defaultAccess := ""
                   readOnlyHosts := some (hostIds.map HostIdContent.mk)
                   readWriteHosts := none
                   readOnlyRootAccessHosts := none
                   rootAccessHosts := none }⟩]⟩⟩]
    ∧ ∀ accessType : AccessType,
        populatedCount (modifyShareParameters hostIds accessType) = 1 := by
  constructor
  · have h1 := findFilesystemById_ok e filesystemId fs hne hfs
    simp only [ModifyNFSShareHostAccess, h1, hne, if_neg hne]
    have hp : modifyShareParameters hostIds ReadOnlyAccessType
        = { defaultAccess := ""
            readOnlyHosts := some (hostIds.map HostIdContent.mk)
            readWriteHosts := none
            readOnlyRootAccessHosts := none
            rootAccessHosts := none } := by
      simp [modifyShareParameters]
    cases hu : e.unitResp (modifyShareReq fs.fileContent.storageResource.id nfsShareId
        hostIds ReadOnlyAccessType) <;>
      simp [hu, modifyShareReq, hp]
  · intro accessType
    unfold modifyShareParameters
    split_ifs <;> simp [populatedCount]

theorem c5_read_only_populates_only_read_only_witness :
    (ModifyNFSShareHostAccess execAllOk "fs_1" "sh_1" ["host_1"] ReadOnlyAccessType).2
      = [fsGetByIdReq "fs_1",
         ⟨"POST", unityModifyFilesystemUri "sv_1",
          .shareModify ⟨[⟨⟨"sh_1"⟩,
            some { defaultAccess := ""
                   readOnlyHosts := some [⟨"host_1"⟩]
                   readWriteHosts := none
                   readOnlyRootAccessHosts := none
                   rootAccessHosts := none }⟩]⟩⟩]
    ∧ populatedCount (modifyShareParameters ["host_1"] ReadWriteRootAccessType) = 1 := by
  obtain ⟨h1, h2⟩ := c5_read_only_populates_only_read_only execAllOk "fs_1" "sh_1" ["host_1"] fs1
    (by decide) rfl
  exact ⟨h1, h2 ReadWriteRootAccessType⟩

/-- C6: a filesystem name longer than 63 characters makes CreateFilesystem
return the length validation error with an empty trace, so before any
executor call; and a non-empty name of at most 63 characters passes the
name validation, the call proceeding to the body of the creation. -/
theorem c6_name_length_validation (e : Executor)
    (name storagepool description nasServer : String) (size : Nat)
    (tieringPolicy hostIOSize supportedProtocol : Int) (thin dr : Bool) :
    (name.length > 63 →
      CreateFilesystem e name storagepool description nasServer size tieringPolicy
          hostIOSize supportedProtocol thin dr
        = (.error (.msg ("filesystem name " ++ name ++ " should not exceed 63 characters.")), []))
    ∧ (¬ name = "" → name.length ≤ 63 →
      CreateFilesystem e name storagepool description nasServer size tieringPolicy
          hostIOSize supportedProtocol thin dr
        = createFilesystemBody e name storagepool description nasServer size tieringPolicy
            hostIOSize supportedProtocol thin dr) := by
  constructor
  · intro hgt
    have hne : ¬ name = "" := by
      intro h
      rw [h] at hgt
      simp at hgt
    have h63 : toString (63 : Nat) = "63" := rfl
    simp only [CreateFilesystem, hne, FsNameMaxLength, hgt, h63, if_true, if_false,
      ite_true, ite_false, if_neg, gt_iff_lt, String.append_assoc]
    rfl
  · intro hne hle
    have hngt : ¬ name.length > FsNameMaxLength := by
      simp [FsNameMaxLength]
      exact hle
    simp [CreateFilesystem, hne, hngt]

theorem c6_name_length_validation_witness :
    CreateFilesystem execAllOk
        "a234567890123456789012345678901234567890123456789012345678901234"
        "pool_1" "d" "nas_1" 100 1 8192 1 false false
      = (.error (.msg ("filesystem name "
          ++ "a234567890123456789012345678901234567890123456789012345678901234"
          ++ " should not exceed 63 characters.")), [])
    ∧ CreateFilesystem execAllOk "fsname" "pool_1" "d" "nas_1" 100 1 8192 1 false false
      = createFilesystemBody execAllOk "fsname" "pool_1" "d" "nas_1" 100 1 8192 1 false false := by
  refine ⟨?_, ?_⟩
  · exact (c6_name_length_validation execAllOk
      "a234567890123456789012345678901234567890123456789012345678901234"
      "pool_1" "d" "nas_1" 100 1 8192 1 false false).1 (by decide)
  · exact (c6_name_length_validation execAllOk "fsname"
      "pool_1" "d" "nas_1" 100 1 8192 1 false false).2 (by decide) (by decide)

/-- C10: ModifyNFSShareHostAccess never rejects an access type: for any
access type other than READ_ONLY, READ_WRITE and READ_ONLY_ROOT, among
them READ_WRITE_ROOT and arbitrary strings, the modify POST populates the
root-access host list with the given hosts, and with an accepting executor
the call succeeds rather than returning a validation error. -/
theorem c10_unrecognized_access_is_root (e : Executor)
    (filesystemId nfsShareId : String) (hostIds : List String)
    (accessType : AccessType) (fs : Filesystem)
    (hne : filesystemId.length ≠ 0)
    (hfs : e.fsResp (fsGetByIdReq filesystemId) = .ok fs)
    (h1 : accessType ≠ ReadOnlyAccessType)
    (h2 : accessType ≠ ReadWriteAccessType)
    (h3 : accessType ≠ ReadOnlyRootAccessType) :
    (ModifyNFSShareHostAccess e filesystemId nfsShareId hostIds accessType).2
      = [fsGetByIdReq filesystemId,
         ⟨"POST", unityModifyFilesystemUri fs.fileContent.storageResource.id,
          .shareModify ⟨[⟨⟨nfsShareId⟩,
            some { defaultAccess := ""
                   readOnlyHosts := none
                   readWriteHosts := none
                   readOnlyRootAccessHosts := none
                   rootAccessHosts := some (hostIds.map HostIdContent.mk) }⟩]⟩⟩]
    ∧ (e.unitResp (modifyShareReq fs.fileContent.storageResource.id nfsShareId hostIds accessType)
          = .ok () →
        (ModifyNFSShareHostAccess e filesystemId nfsShareId hostIds accessType).1 = .ok ()) := by
  have hfind := findFilesystemById_ok e filesystemId fs hne hfs
  have hp : modifyShareParameters hostIds accessType
      = { defaultAccess := ""
          readOnlyHosts := none
          readWriteHosts := none
          readOnlyRootAccessHosts := none
          rootAccessHosts := some (hostIds.map HostIdContent.mk) } := by
    simp [modifyShareParameters, h1, h2, h3]
  constructor
  · simp only [ModifyNFSShareHostAccess, hfind, if_neg hne]
    cases hu : e.unitResp (modifyShareReq fs.fileContent.storageResource.id nfsShareId
        hostIds accessType) <;>
      simp [hu, modifyShareReq, hp]
  · intro hok
    simp [ModifyNFSShareHostAccess, hfind, if_neg hne, hok]

theorem c10_unrecognized_access_is_root_witness :
    (ModifyNFSShareHostAccess execAllOk "fs_1" "sh_1" ["host_1"] "GARBAGE").2
      = [fsGetByIdReq "fs_1",
         ⟨"POST", unityModifyFilesystemUri "sv_1",
          .shareModify ⟨[⟨⟨"sh_1"⟩,
            some { defaultAccess := ""
                   readOnlyHosts := none
                   readWriteHosts := none
                   readOnlyRootAccessHosts := none
                   rootAccessHosts := some [⟨"host_1"⟩] }⟩]⟩⟩]
    ∧ (ModifyNFSShareHostAccess execAllOk "fs_1" "sh_1" ["host_1"] "GARBAGE").1 = .ok () := by
  obtain ⟨h1, h2⟩ := c10_unrecognized_access_is_root execAllOk "fs_1" "sh_1" ["host_1"]
    "GARBAGE" fs1 (by decide) rfl (by decide) (by decide) (by decide)
  exact ⟨h1, h2 rfl⟩

/-- C7 counterexample: the claim says every lookup returns a distinguished
not-found sentinel when the executor fails, yet the NFS share lookup by id
on a failing executor returns a freshly constructed descriptive error (the
model of `errors.New` on a formatted message), not the only sentinel the
package declares, `FilesystemNotFoundError`; a caller comparing against a
sentinel cannot recognize this error. -/
theorem c7_counterexample :
    (FindNFSShareById execAllFail "sh_1").1
      = .error (.msg "Unable to find NFS Share: sh_1. Error: boom")
    ∧ (FindNFSShareById execAllFail "sh_1").1 ≠ .error GoErr.fsNotFound := by
  decide

/-- C7 (amended): on executor failure with a non-empty identifier, the two
filesystem lookups return the `FilesystemNotFoundError` sentinel, so
callers can branch on it; the NFS share lookups and the NAS server lookup
instead return freshly constructed wrapped errors that are never the
sentinel, so sentinel-based branching is available only for filesystem
lookups. -/
theorem c7_lookup_error_mapping (e : Executor)
    (fsName fsId shareName shareId nasId : String) (er : GoErr) :
    (fsName.length ≠ 0 → e.fsResp (fsGetByNameReq fsName) = .error er →
      FindFilesystemByName e fsName = (.error .fsNotFound, [fsGetByNameReq fsName]))
    ∧ (fsId.length ≠ 0 → e.fsResp (fsGetByIdReq fsId) = .error er →
      FindFilesystemById e fsId = (.error .fsNotFound, [fsGetByIdReq fsId]))
    ∧ (shareName.length ≠ 0 → e.nfsResp (nfsGetByNameReq shareName) = .error er →
      (FindNFSShareByName e shareName).1
          = .error (.msg ("Unable to find NFS Share. Error: " ++ errString er))
        ∧ (FindNFSShareByName e shareName).1 ≠ .error .fsNotFound)
    ∧ (shareId.length ≠ 0 → e.nfsResp (nfsGetByIdReq shareId) = .error er →
      (FindNFSShareById e shareId).1
          = .error (.msg ("Unable to find NFS Share: " ++ shareId ++ ". Error: " ++ errString er))
        ∧ (FindNFSShareById e shareId).1 ≠ .error .fsNotFound)
    ∧ (nasId.length ≠ 0 → e.nasResp (nasGetByIdReq nasId) = .error er →
      (FindNASServerById e nasId).1
          = .error (.msg ("Unable to find NAS Server: " ++ nasId ++ ". Error: " ++ errString er))
        ∧ (FindNASServerById e nasId).1 ≠ .error .fsNotFound) := by
  refine ⟨?_, ?_, ?_, ?_, ?_⟩
  · intro hne herr
    simp [FindFilesystemByName, hne, herr]
  · intro hne herr
    exact findFilesystemById_err e fsId er hne herr
  · intro hne herr
    constructor
    · simp [FindNFSShareByName, hne, herr]
    · simp [FindNFSShareByName, hne, herr]
  · intro hne herr
    constructor
    · simp [FindNFSShareById, hne, herr]
    · simp [FindNFSShareById, hne, herr]
  · intro hne herr
    constructor
    · simp [FindNASServerById, hne, herr]
    · simp [FindNASServerById, hne, herr]

theorem c7_lookup_error_mapping_witness :
    FindFilesystemById execAllFail "fs_1" = (.error .fsNotFound, [fsGetByIdReq "fs_1"])
    ∧ (FindNASServerById execAllFail "nas_1").1
        = .error (.msg ("Unable to find NAS Server: " ++ "nas_1" ++ ". Error: "
            ++ errString (.msg "boom")))
    ∧ (FindNASServerById execAllFail "nas_1").1 ≠ .error .fsNotFound := by
  obtain ⟨-, h2, -, -, h5⟩ :=
    c7_lookup_error_mapping execAllFail "fs_1" "fs_1" "sh_1" "sh_1" "nas_1" (.msg "boom")
  obtain ⟨h5a, h5b⟩ := h5 (by decide) rfl
  exact ⟨h2 (by decide) rfl, h5a, h5b⟩

theorem intercalate_go_append (s x y : String) (l : List String) :
    String.intercalate.go (x ++ y) s l = x ++ String.intercalate.go y s l := by
  induction l generalizing y with
  | nil => rfl
  | cons a as ih =>
    show String.intercalate.go (x ++ y ++ s ++ a) s as
        = x ++ String.intercalate.go (y ++ s ++ a) s as
    rw [String.append_assoc x y s, String.append_assoc x (y ++ s) a]
    exact ih ((y ++ s) ++ a)

theorem intercalate_cons_cons (s a b : String) (l : List String) :
    String.intercalate s (a :: b :: l) = a ++ s ++ String.intercalate s (b :: l) := by
  show String.intercalate.go (a ++ s ++ b) s l = a ++ s ++ String.intercalate.go b s l
  exact intercalate_go_append s (a ++ s) b l

theorem indentLoop_eq (n : Nat) (l : String) (rest : List String) :
    indentLoop n l rest
      = String.intercalate "\n"
          ((l :: rest).map (fun t => String.mk (List.replicate n ' ') ++ t)) := by
  induction rest generalizing l with
  | nil => rfl
  | cons b bs ih =>
    show String.mk (List.replicate n ' ') ++ l ++ "\n" ++ indentLoop n b bs
        = String.intercalate "\n"
            ((l :: b :: bs).map (fun t => String.mk (List.replicate n ' ') ++ t))
    rw [ih b]
    simp only [List.map_cons]
    rw [intercalate_cons_cons]

/-- The indentation behaviour the claim describes: the lines of the input,
each prefixed by n spaces, joined by single newlines, with no trailing
newline. -/
def indentSpec (b : String) (n : Nat) : String :=
  String.intercalate "\n"
    ((scanLines b).map (fun l => String.mk (List.replicate n ' ') ++ l))

/-- C9: writeIndentedN writes exactly the lines of its input as split by
the line scanner, each prefixed with n spaces and joined by single
newlines with no trailing newline; with no lines it writes nothing; and
writeIndented is writeIndentedN at four spaces. (The Go function returns
nil in every one of these cases: its only error exits propagate writer
failures, and the writers used by this package are in-memory buffers whose
writes never fail, which this pure-writer model reflects.) -/
theorem c9_writeIndentedN_spec (b : String) (n : Nat) :
    writeIndentedN b n = indentSpec b n
    ∧ (scanLines b = [] → writeIndentedN b n = "")
    ∧ writeIndented b = writeIndentedN b 4 := by
  refine ⟨?_, ?_, rfl⟩
  · unfold writeIndentedN indentSpec
    cases h : scanLines b with
    | nil => rfl
    | cons l rest => exact indentLoop_eq n l rest
  · intro h
    unfold writeIndentedN
    rw [h]

theorem c9_writeIndentedN_spec_witness :
    writeIndentedN "a\r\nb" 2 = indentSpec "a\r\nb" 2
    ∧ (scanLines "" = [] → writeIndentedN "" 2 = "")
    ∧ writeIndented "a\r\nb" = writeIndentedN "a\r\nb" 4
    ∧ writeIndentedN "a\r\nb" 2 = "  a\n  b" := by
  refine ⟨(c9_writeIndentedN_spec "a\r\nb" 2).1,
    (c9_writeIndentedN_spec "" 2).2.1,
    (c9_writeIndentedN_spec "a\r\nb" 4).2.2, by decide⟩

/-- C8 counterexample: the claim says the logging helpers render the dump
for the diagnostic logs, yet logRequest hands nothing to the logger even
for an ordinary request whose dump succeeds: the debug emission in the
source is commented out, so the rendered request dump never reaches any
log. -/
theorem c8_counterexample :
    (logRequest (fun m b => .ok (dumpMessage m b))
        ⟨[("Content-Type", "text/plain")], "GET / HTTP/1.1\n", "hello"⟩).emitted = [] := rfl

/-- C8 (amended): when the Content-Type header equals the binary octet
stream value the helpers dump without capturing the body, so their outcome
is unchanged by any body; otherwise the rendered request dump includes the
body; both helpers return no value and never alter the caller s control
flow (they are total, and a failed dump only makes them skip work):
whenever the dump succeeds, logResponse renders the banner followed by the
indented dump recopied line by line, and emits exactly that rendered
buffer to the debug log, emitting nothing when the dump fails, while
logRequest never emits anything, its debug emission being commented out in
the source. -/
theorem c8_logging_helpers (dump : HttpMessage → Bool → Except String String)
    (req res : HttpMessage) (b1 b2 : String) :
    (isBinOctetBody req.header = true →
      logRequest (fun m b => .ok (dumpMessage m b)) { req with bodyText := b1 }
        = logRequest (fun m b => .ok (dumpMessage m b)) { req with bodyText := b2 })
    ∧ (isBinOctetBody res.header = true →
      logResponse (fun m b => .ok (dumpMessage m b)) { res with bodyText := b1 }
        = logResponse (fun m b => .ok (dumpMessage m b)) { res with bodyText := b2 })
    ∧ (isBinOctetBody req.header = false →
      logRequest (fun m b => .ok (dumpMessage m b)) req
        = { rendered := requestBanner ++ writeIndented (req.headText ++ req.bodyText) ++ "\n",
            emitted := [] })
    ∧ (logRequest dump req).emitted = []
    ∧ (∀ buf : String, dump res (!(isBinOctetBody res.header)) = .ok buf →
      logResponse dump res
        = { rendered := responseBanner
              ++ String.join ((scanLines (writeIndented buf)).map (fun l => l ++ "\n"))
            emitted := [responseBanner
              ++ String.join ((scanLines (writeIndented buf)).map (fun l => l ++ "\n"))] })
    ∧ ((logResponse dump res).emitted = []
        ∨ (logResponse dump res).emitted = [(logResponse dump res).rendered]) := by
  refine ⟨?_, ?_, ?_, ?_, ?_, ?_⟩
  · intro hb
    simp [logRequest, dumpMessage, hb]
  · intro hb
    simp [logResponse, dumpMessage, hb]
  · intro hb
    simp [logRequest, dumpMessage, hb]
  · cases h : dump req (!(isBinOctetBody req.header)) <;> simp [logRequest, h]
  · intro buf hb
    simp [logResponse, hb]
  · cases h : dump res (!(isBinOctetBody res.header)) with
    | error er => exact Or.inl (by simp [logResponse, h])
    | ok buf => exact Or.inr (by simp [logResponse, h])

theorem c8_logging_helpers_witness :
    logRequest (fun m b => .ok (dumpMessage m b))
        ⟨[("Content-Type", "binary/octet-stream")], "GET / HTTP/1.1\n", "SECRET1"⟩
      = logRequest (fun m b => .ok (dumpMessage m b))
        ⟨[("Content-Type", "binary/octet-stream")], "GET / HTTP/1.1\n", "SECRET2"⟩
    ∧ logRequest (fun m b => .ok (dumpMessage m b))
        ⟨[("Content-Type", "text/plain")], "GET / HTTP/1.1\n", "hello"⟩
      = { rendered := requestBanner ++ writeIndented ("GET / HTTP/1.1\n" ++ "hello") ++ "\n",
          emitted := [] }
    ∧ logResponse (fun m b => .ok (dumpMessage m b))
        ⟨[("Content-Type", "text/plain")], "HTTP/1.1 200 OK\n", "hello"⟩
      = { rendered := responseBanner
            ++ String.join ((scanLines (writeIndented ("HTTP/1.1 200 OK\n" ++ "hello"))).map
              (fun l => l ++ "\n"))
          emitted := [responseBanner
            ++ String.join ((scanLines (writeIndented ("HTTP/1.1 200 OK\n" ++ "hello"))).map
              (fun l => l ++ "\n"))] }
    ∧ ((logResponse (fun m b => .ok (dumpMessage m b))
          ⟨[("Content-Type", "text/plain")], "HTTP/1.1 200 OK\n", "hello"⟩).emitted = []
        ∨ (logResponse (fun m b => .ok (dumpMessage m b))
          ⟨[("Content-Type", "text/plain")], "HTTP/1.1 200 OK\n", "hello"⟩).emitted
          = [(logResponse (fun m b => .ok (dumpMessage m b))
          ⟨[("Content-Type", "text/plain")], "HTTP/1.1 200 OK\n", "hello"⟩).rendered]) := by
  obtain ⟨h1, -, -, -, -, -⟩ := c8_logging_helpers (fun m b => .ok (dumpMessage m b))
    (⟨[("Content-Type", "binary/octet-stream")], "GET / HTTP/1.1\n", "x"⟩)
    (⟨[("Content-Type", "text/plain")], "HTTP/1.1 200 OK\n", "hello"⟩) "SECRET1" "SECRET2"
  obtain ⟨-, -, h3, -, h5, h6⟩ := c8_logging_helpers (fun m b => .ok (dumpMessage m b))
    (⟨[("Content-Type", "text/plain")], "GET / HTTP/1.1\n", "hello"⟩)
    (⟨[("Content-Type", "text/plain")], "HTTP/1.1 200 OK\n", "hello"⟩) "b1" "b2"
  exact ⟨h1 (by decide), h3 (by decide), h5 ("HTTP/1.1 200 OK\n" ++ "hello") rfl, h6⟩

end Gounity
